import Mathlib

/-!
Shallow embedding of the err_core fault-monitoring module (src/err_core.c,
src/err_core.h) and verification of its specification claims.

Modelling conventions:
- EC_TIME_t is volatile uint32_t; timestamps are Nat values reduced mod 2^32,
  and the C unsigned subtraction EC_GET_TICK - timestamp is sub32.
- The 64-bit registers ErrorReg / WarningReg are Nat values, manipulated with
  the same bitwise operations the C code uses.
- An error-check predicate ErrFunc is external user code; its presence
  (NULL or not) is the Bool ErrFuncPresent, and the value it would return at a
  given call is an oracle argument (fault) threaded into poll / checkError.
- The 7-bit bitfield WarningCnt wraps mod 128 on increment.
- C behavior that is a failed assert or undefined (null dereference,
  oversized or overflowing shift) is made explicit with CRes / Option.
-/

/-- Modulus of the 32-bit time base (EC_TIME_t = volatile uint32_t). -/
def M32 : Nat := 2 ^ 32

/-- Unsigned 32-bit subtraction a - b, as computed by C on uint32_t values:
the result is the mathematical difference mod 2^32 even when b > a. -/
def sub32 (a b : Nat) : Nat := (a % M32 + (M32 - b % M32)) % M32

/-- Clearing bit i of a 64-bit register: r &= ~((uint64_t)1 << i). -/
def clearBit64 (r i : Nat) : Nat := r &&& (2 ^ 64 - 1 - (1 <<< i))

/-- One error definition (EC_error_t). ErrFuncPresent models whether the
ErrFunc pointer is non-NULL; the predicate itself is external. -/
structure EC_error where
  ErrFuncPresent : Bool
  HelperNumber : Nat
  TimeToErrorRegister : Nat
  TimeToResetWarning : Nat
  WarningsToError : Nat
deriving DecidableEq

/-- Per-condition runtime record (EC_runtimeData_t). WarningCnt is the 7-bit
accumulator, WarningPending the 1-bit flag. -/
structure EC_runtimeData where
  LastReg : Nat
  LastNoErr : Nat
  WarningCnt : Nat
  WarningPending : Bool
deriving DecidableEq

/-- The instance aggregate (EC_instance_t). -/
structure EC_instance where
  ErrorReg : Nat
  WarningReg : Nat
  Errors : List EC_error
  RuntimeData : List EC_runtimeData
  NumberOfErrors : Nat
deriving DecidableEq

/-- Default error definition used for out-of-range list reads (never hit on
inputs respecting the C array bounds). -/
def eZero : EC_error := ⟨false, 0, 0, 0, 0⟩

/-- Zero-initialized runtime record. -/
def rtZero : EC_runtimeData := ⟨0, 0, 0, false⟩

/-- The predicate-evaluation guard of EC_poll, err_core.c line 68:
!(ErrorReg & ((uint64_t)1 << i)) && NULL != Errors[i].ErrFunc
&& 0 == RuntimeData[i].WarningPending.
The condition's predicate is called in a poll pass iff this holds. -/
def pollEvalGuard (s : EC_instance) (i : Nat) : Prop :=
  s.ErrorReg &&& (1 <<< i) = 0 ∧
  (s.Errors.getD i eZero).ErrFuncPresent = true ∧
  (s.RuntimeData.getD i rtZero).WarningPending = false

instance (s : EC_instance) (i : Nat) : Decidable (pollEvalGuard s i) := by
  unfold pollEvalGuard
  infer_instance

/-- The check/registration phase of one EC_poll loop iteration for condition i
(err_core.c lines 68-91): evaluate the predicate when the guard allows, record
a fault-free observation, or register a warning / escalate to an error once
the debounce window has elapsed. fault is the value ErrFunc returns. -/
def pollCheck (fault : Bool) (now i : Nat) (s : EC_instance) : EC_instance :=
  let e := s.Errors.getD i eZero
  let rt := s.RuntimeData.getD i rtZero
  if pollEvalGuard s i then
    if fault = false then
      { s with RuntimeData := s.RuntimeData.set i { rt with LastNoErr := now % M32 } }
    else if e.TimeToErrorRegister ≤ sub32 now rt.LastNoErr then
      let cnt := (rt.WarningCnt + 1) % 128
      if e.WarningsToError ≤ cnt then
        { s with
          ErrorReg := s.ErrorReg ||| (1 <<< i)
          WarningReg := clearBit64 s.WarningReg i
          RuntimeData := s.RuntimeData.set i { rt with WarningCnt := 0, LastReg := now % M32 } }
      else
        { s with
          WarningReg := s.WarningReg ||| (1 <<< i)
          RuntimeData := s.RuntimeData.set i
            { rt with WarningCnt := cnt, WarningPending := true, LastReg := now % M32 } }
    else s
  else s

/-- The unconditional cooldown sweep of one EC_poll loop iteration for
condition i (err_core.c lines 92-97): once TimeToResetWarning has elapsed
since LastReg, clear the warning bit, the accumulator and the pending flag. -/
def pollSweep (now i : Nat) (s : EC_instance) : EC_instance :=
  let e := s.Errors.getD i eZero
  let rt := s.RuntimeData.getD i rtZero
  if e.TimeToResetWarning ≤ sub32 now rt.LastReg then
    { s with
      WarningReg := clearBit64 s.WarningReg i
      RuntimeData := s.RuntimeData.set i { rt with WarningCnt := 0, WarningPending := false } }
  else s

/-- One full EC_poll loop iteration for condition i: registration phase then
cooldown sweep, exactly the body of the for loop at err_core.c lines 66-98. -/
def pollStep (fault : Bool) (now i : Nat) (s : EC_instance) : EC_instance :=
  pollSweep now i (pollCheck fault now i s)

/-- The EC_poll loop after processing conditions 0..m-1. fault i is the value
condition i's predicate would return if called during this pass. -/
def pollUpTo (fault : Nat → Bool) (now : Nat) : Nat → EC_instance → EC_instance
  | 0, s => s
  | m + 1, s => pollStep (fault m) now m (pollUpTo fault now m s)

/-- EC_poll (err_core.c lines 61-99): one full pass over all
NumberOfErrors conditions at tick now. -/
def EC_poll (fault : Nat → Bool) (now : Nat) (s : EC_instance) : EC_instance :=
  pollUpTo fault now s.NumberOfErrors s

/-- A sequence of EC_poll calls: poll number k uses tick nows k and
per-condition predicate values faults k. -/
def iteratePolls (faults : Nat → Nat → Bool) (nows : Nat → Nat) :
    Nat → EC_instance → EC_instance
  | 0, s => s
  | k + 1, s => EC_poll (faults k) (nows k) (iteratePolls faults nows k s)

/-- EC_getErrors (err_core.c lines 104-109). -/
def EC_getErrors (s : EC_instance) : Nat := s.ErrorReg

/-- Result of a C call that may fail its assert or run into undefined
behavior before producing a value. -/
inductive CRes (α : Type) where
  | ok : α → CRes α
  | assertFail : CRes α
  | undef : CRes α
deriving DecidableEq

/-- The expression 1 << n at C int width (32 bits), as written at
err_core.c line 132: defined only for n ≤ 30 (n = 31 overflows the signed
result, n ≥ 32 shifts by at least the width of int). -/
def c_shl1_int (n : Nat) : Option Nat :=
  if n ≤ 30 then some (1 <<< n) else none

/-- EC_getOneError (err_core.c lines 114-122): assert(ErrorNumber <= 64),
then test ErrorReg & ((uint64_t)1 << ErrorNumber). The shift is undefined
for ErrorNumber = 64, which the assert lets through. true models EC_ERR. -/
def EC_getOneError (n : Nat) (s : EC_instance) : CRes Bool :=
  if n ≤ 64 then
    if n < 64 then .ok (decide (s.ErrorReg &&& (1 <<< n) ≠ 0))
    else .undef
  else .assertFail

/-- EC_checkError (err_core.c lines 127-147): assert(ErrorNumber <= 64);
test ErrorReg & (1 << ErrorNumber) with the mask built at int width
(undefined for ErrorNumber ≥ 31); if the bit is set return EC_ERR, else if
ErrFunc is non-NULL call it once (its value is the fault argument) and
or its result into ErrorReg, else return EC_NERR. -/
def EC_checkError (fault : Bool) (n : Nat) (s : EC_instance) :
    CRes (Bool × EC_instance) :=
  if n ≤ 64 then
    match c_shl1_int n with
    | none => .undef
    | some mask =>
      if s.ErrorReg &&& mask ≠ 0 then
        .ok (true, s)
      else if (s.Errors.getD n eZero).ErrFuncPresent then
        .ok (fault, { s with ErrorReg := s.ErrorReg ||| ((if fault then 1 else 0) <<< n) })
      else
        .ok (false, s)
  else .assertFail

/-- The EC_clearErr loop after processing conditions 0..m-1
(err_core.c lines 156-160): set LastNoErr to now, clear WarningPending. -/
def clearLoop (now : Nat) : Nat → EC_instance → EC_instance
  | 0, s => s
  | m + 1, s =>
    let s' := clearLoop now m s
    let rt := s'.RuntimeData.getD m rtZero
    let rt' := { rt with LastNoErr := now % M32, WarningPending := false }
    { s' with RuntimeData := s'.RuntimeData.set m rt' }

/-- EC_clearErr (err_core.c lines 152-163): run the loop over all
conditions, then zero ErrorReg. Note the C code touches neither WarningReg
nor WarningCnt. -/
def EC_clearErr (now : Nat) (s : EC_instance) : EC_instance :=
  { clearLoop now s.NumberOfErrors s with ErrorReg := 0 }

/-- EC_GET_TICK in the EC_TICK_FROM_FUNC configuration (err_core.c line 18):
(EC_get_tick != NULL) ? EC_get_tick() : ((EC_TIME_t)0). The binding carries
the value the registered function returns. -/
def ecGetTickFromFunc (binding : Option Nat) : Nat :=
  match binding with
  | some t => t % M32
  | none => 0

/-- EC_GET_TICK in the default variable configuration (err_core.c line 31):
(*(EC_tick)). With no binding registered EC_tick is NULL and the read is a
null-pointer dereference, modelled as none. -/
def ecGetTickFromVar (binding : Option Nat) : Option Nat :=
  match binding with
  | some t => some (t % M32)
  | none => none

/-- EC_poll under the function-based tick configuration. -/
def EC_pollFromFunc (binding : Option Nat) (fault : Nat → Bool)
    (s : EC_instance) : EC_instance :=
  EC_poll fault (ecGetTickFromFunc binding) s

/-- EC_poll under the variable-based tick configuration; none when the tick
read is undefined. -/
def EC_pollFromVar (binding : Option Nat) (fault : Nat → Bool)
    (s : EC_instance) : Option EC_instance :=
  (ecGetTickFromVar binding).map (fun now => EC_poll fault now s)

/-- A condition definition with WarningsToError = 2, an immediate debounce
window and a 5-tick cooldown; used to drive the warning path concretely. -/
def eW2 : EC_error :=
  { ErrFuncPresent := true, HelperNumber := 0, TimeToErrorRegister := 0,
    TimeToResetWarning := 5, WarningsToError := 2 }

/-- Zero-initialized single-condition instance over eW2. -/
def s0W2 : EC_instance :=
  { ErrorReg := 0, WarningReg := 0, Errors := [eW2], RuntimeData := [rtZero],
    NumberOfErrors := 1 }

/-- Single-condition instance mid-flight: one active warning (WarningReg bit 0
set, WarningPending set, WarningCnt = 3), two stale error bits. -/
def sMid : EC_instance :=
  { ErrorReg := 5, WarningReg := 1, Errors := [eW2],
    RuntimeData := [{ LastReg := 0, LastNoErr := 0, WarningCnt := 3, WarningPending := true }],
    NumberOfErrors := 1 }

/-- Instance with error bit 32 set (reachable, e.g. set by EC_checkError via
the correctly cast shift at err_core.c line 141) and 33 conditions. -/
def sHigh : EC_instance :=
  { ErrorReg := 2 ^ 32, WarningReg := 0, Errors := List.replicate 33 eW2,
    RuntimeData := List.replicate 33 rtZero, NumberOfErrors := 33 }

/-- 33-condition instance with no error bits and every ErrFunc NULL. -/
def sNull : EC_instance :=
  { ErrorReg := 0, WarningReg := 0, Errors := List.replicate 33 eZero,
    RuntimeData := List.replicate 33 rtZero, NumberOfErrors := 33 }

/-- Claim C2 (code bug): EC_clearErr is claimed to zero both registers and
every WarningCnt. On the instance sMid (WarningReg = 1, WarningCnt = 3) at
tick 7 the code zeroes ErrorReg, clears WarningPending and stamps LastNoErr,
but leaves WarningReg = 1 and WarningCnt = 3, contradicting the claim and
the header's @post WarningReg = 0 / All WarningCnt = 0. -/
theorem C2_clearErr_leaves_warning_state :
    (EC_clearErr 7 sMid).ErrorReg = 0 ∧
    (EC_clearErr 7 sMid).WarningReg = 1 ∧
    ((EC_clearErr 7 sMid).RuntimeData.getD 0 rtZero).WarningCnt = 3 ∧
    ((EC_clearErr 7 sMid).RuntimeData.getD 0 rtZero).WarningPending = false ∧
    ((EC_clearErr 7 sMid).RuntimeData.getD 0 rtZero).LastNoErr = 7 := by
  decide

/-- Claim C3 (code bug): the claim (and the TimeToResetWarning doc comment in
err_core.h) says the WarningCnt accumulator is never reset by expiry of the
reset window. On sMid' below (WarningCnt = 1, pending, LastReg = 0) a poll at
tick 5 = TimeToResetWarning does not evaluate the predicate (the guard fails
on WarningPending), registers nothing, observes no fault-free interval, yet
the sweep at err_core.c lines 92-97 resets WarningCnt to 0. -/
theorem C3_sweep_resets_accumulator :
    (let sMid' : EC_instance :=
      { ErrorReg := 0, WarningReg := 1,
        Errors := [{ ErrFuncPresent := true, HelperNumber := 0, TimeToErrorRegister := 10,
                     TimeToResetWarning := 5, WarningsToError := 3 }],
        RuntimeData := [{ LastReg := 0, LastNoErr := 0, WarningCnt := 1, WarningPending := true }],
        NumberOfErrors := 1 }
     (sMid'.RuntimeData.getD 0 rtZero).WarningCnt = 1 ∧
     ¬ pollEvalGuard sMid' 0 ∧
     (EC_poll (fun _ => true) 5 sMid').ErrorReg = 0 ∧
     ((EC_poll (fun _ => true) 5 sMid').RuntimeData.getD 0 rtZero).WarningCnt = 0) := by
  decide

/-- Claim C4 (code bug): warning-register bit i is claimed always equal to
WarningPending in every reachable state. From the zero-initialized s0W2
(WarningsToError = 2, immediate debounce), one faulted poll at tick 0 raises
a warning (bit 0 and WarningPending both set), then EC_clearErr at tick 3
clears WarningPending but not the WarningReg bit (the EC_clearErr slip of
err_core.c lines 152-163), breaking the claimed invariant. -/
theorem C4_clearErr_breaks_warning_invariant :
    (EC_clearErr 3 (EC_poll (fun _ => true) 0 s0W2)).WarningReg.testBit 0 = true ∧
    ((EC_clearErr 3 (EC_poll (fun _ => true) 0 s0W2)).RuntimeData.getD 0 rtZero).WarningPending
      = false := by
  decide

/-- Claim C5 (code bug): EC_checkError is claimed, for every index in [0,64)
with the error bit set, to return error-present without evaluating the
predicate and without state change. On sHigh, whose error bit 32 is set,
EC_checkError 32 first computes the mask 1 << 32 at int width
(err_core.c line 132, missing the (uint64_t) cast used everywhere else),
which is undefined instead of a read of bit 32. -/
theorem C5_checkError_int_mask_undefined :
    sHigh.ErrorReg.testBit 32 = true ∧
    EC_checkError false 32 sHigh = CRes.undef := by
  decide

/-- Claim C9 (code bug): EC_getOneError is claimed to fail the out-of-range
precondition for every index ≥ 64, and to read bit index for index < 64. The
assert at err_core.c line 117 checks ErrorNumber <= 64, so index 64 passes
the precondition check and reaches the undefined shift (uint64_t)1 << 64;
only index ≥ 65 actually fails the assert. Bit reads below 64 work (bit 0 of
ErrorReg = 5 is set, bit 1 is clear). -/
theorem C9_getOneError_index64_undefined :
    EC_getOneError 64 sMid = CRes.undef ∧
    EC_getOneError 65 sMid = CRes.assertFail ∧
    EC_getOneError 0 sMid = CRes.ok true ∧
    EC_getOneError 1 sMid = CRes.ok false := by
  decide

/-- Claim C10 (code bug): for an index with the error bit clear and a NULL
ErrFunc, EC_checkError is claimed to return no-error with no state change.
For index 32 on sNull (bit 32 clear, ErrFunc NULL) the int-width mask
1 << 32 at err_core.c line 132 is computed first and is undefined, so the
claimed behavior is not reached for indices ≥ 31. -/
theorem C10_checkError_nullFunc_index32_undefined :
    sNull.ErrorReg.testBit 32 = false ∧
    (sNull.Errors.getD 32 eZero).ErrFuncPresent = false ∧
    EC_checkError false 32 sNull = CRes.undef := by
  decide

/-- Claim C6 (counterexample): the claim says poll before any time-source
binding is registered is defined and harmless in both configurations. In the
default variable-based configuration (EC_TICK_FROM_FUNC = 0), EC_GET_TICK is
*(EC_tick) with EC_tick = NULL, a null dereference: polling the
zero-initialized s0W2 with no binding is undefined, not harmless. -/
theorem C6_variable_tick_unbound_undefined :
    EC_pollFromVar none (fun _ => true) s0W2 = none := by
  decide

/-- Claim C6 (amended): in the function-based configuration only, EC_GET_TICK
guards against the NULL binding and substitutes tick 0, so an unbound poll is
the ordinary poll at tick 0 and the delta measured against a zero-initialized
timestamp is sub32 0 0 = 0. -/
theorem C6_function_tick_unbound_is_tick_zero (fault : Nat → Bool) (s : EC_instance) :
    EC_pollFromFunc none fault s = EC_poll fault 0 s ∧
    sub32 (ecGetTickFromFunc none) 0 = 0 := by
  constructor
  · rfl
  · decide

/-- getD after set at the same in-bounds index returns the new element. -/
theorem getD_set_self {α : Type} (a d : α) :
    ∀ (l : List α) (i : Nat), i < l.length → (l.set i a).getD i d = a
  | [], _, h => absurd h (by simp)
  | _ :: _, 0, _ => rfl
  | _ :: xs, n + 1, h => getD_set_self a d xs n (Nat.lt_of_succ_lt_succ h)

/-- Claim C1: for a condition whose error bit is clear, whose predicate is
present and whose warning is not pending, if the predicate reports a fault
and the debounce window has elapsed (now - LastNoErr ≥ TimeToErrorRegister),
the registration phase of EC_poll (err_core.c lines 68-90) increments
WarningCnt; if the incremented count reaches WarningsToError it sets error
bit i, clears warning bit i and zeroes WarningCnt, otherwise it sets warning
bit i and WarningPending; in both cases it stamps LastReg with now.
(WarningCnt < 127 keeps the 7-bit accumulator increment exact.) -/
theorem C1_registration_event (now i : Nat) (s : EC_instance)
    (hbit : s.ErrorReg &&& (1 <<< i) = 0)
    (hfn : (s.Errors.getD i eZero).ErrFuncPresent = true)
    (hwp : (s.RuntimeData.getD i rtZero).WarningPending = false)
    (helapsed : (s.Errors.getD i eZero).TimeToErrorRegister ≤
      sub32 now (s.RuntimeData.getD i rtZero).LastNoErr)
    (hcnt : (s.RuntimeData.getD i rtZero).WarningCnt < 127)
    (hnow : now < M32)
    (hi : i < s.RuntimeData.length) :
    ((pollCheck true now i s).RuntimeData.getD i rtZero).WarningCnt =
      (if (s.Errors.getD i eZero).WarningsToError ≤ (s.RuntimeData.getD i rtZero).WarningCnt + 1
       then 0 else (s.RuntimeData.getD i rtZero).WarningCnt + 1) ∧
    ((s.Errors.getD i eZero).WarningsToError ≤ (s.RuntimeData.getD i rtZero).WarningCnt + 1 →
      (pollCheck true now i s).ErrorReg = (s.ErrorReg ||| (1 <<< i)) ∧
      (pollCheck true now i s).WarningReg = clearBit64 s.WarningReg i) ∧
    ((s.RuntimeData.getD i rtZero).WarningCnt + 1 < (s.Errors.getD i eZero).WarningsToError →
      (pollCheck true now i s).WarningReg = (s.WarningReg ||| (1 <<< i)) ∧
      ((pollCheck true now i s).RuntimeData.getD i rtZero).WarningPending = true ∧
      (pollCheck true now i s).ErrorReg = s.ErrorReg) ∧
    ((pollCheck true now i s).RuntimeData.getD i rtZero).LastReg = now := by
  have hguard : pollEvalGuard s i := ⟨hbit, hfn, hwp⟩
  have hmod : ((s.RuntimeData.getD i rtZero).WarningCnt + 1) % 128
      = (s.RuntimeData.getD i rtZero).WarningCnt + 1 := Nat.mod_eq_of_lt (by omega)
  have hnmod : now % M32 = now := Nat.mod_eq_of_lt hnow
  by_cases hesc : (s.Errors.getD i eZero).WarningsToError ≤
      (s.RuntimeData.getD i rtZero).WarningCnt + 1
  · simp only [pollCheck, hmod, hnmod]
    rw [if_pos hguard, if_neg (by simp), if_pos helapsed, if_pos hesc, if_pos hesc]
    refine ⟨?_, fun _ => ⟨rfl, rfl⟩, fun hlt => absurd hesc (by omega), ?_⟩
    · simp [getD_set_self, hi]
    · simp [getD_set_self, hi]
  · simp only [pollCheck, hmod, hnmod]
    rw [if_pos hguard, if_neg (by simp), if_pos helapsed, if_neg hesc, if_neg hesc]
    refine ⟨?_, fun hle => absurd hle hesc, fun _ => ⟨rfl, ?_, rfl⟩, ?_⟩
    · simp [getD_set_self, hi]
    · simp [getD_set_self, hi]
    · simp [getD_set_self, hi]

/-- Witness for C1 at the concrete input now = 0, i = 0, s = s0W2
(WarningsToError = 2, zero runtime): the first registration takes the
warning branch. -/
theorem C1_registration_event_witness :
    (s0W2.ErrorReg &&& (1 <<< 0) = 0 ∧
     (s0W2.Errors.getD 0 eZero).ErrFuncPresent = true ∧
     (s0W2.RuntimeData.getD 0 rtZero).WarningPending = false ∧
     (s0W2.Errors.getD 0 eZero).TimeToErrorRegister ≤
       sub32 0 (s0W2.RuntimeData.getD 0 rtZero).LastNoErr ∧
     (s0W2.RuntimeData.getD 0 rtZero).WarningCnt < 127 ∧
     0 < M32 ∧
     0 < s0W2.RuntimeData.length) ∧
    (((pollCheck true 0 0 s0W2).RuntimeData.getD 0 rtZero).WarningCnt =
      (if (s0W2.Errors.getD 0 eZero).WarningsToError ≤ (s0W2.RuntimeData.getD 0 rtZero).WarningCnt + 1
       then 0 else (s0W2.RuntimeData.getD 0 rtZero).WarningCnt + 1) ∧
     ((s0W2.Errors.getD 0 eZero).WarningsToError ≤ (s0W2.RuntimeData.getD 0 rtZero).WarningCnt + 1 →
       (pollCheck true 0 0 s0W2).ErrorReg = (s0W2.ErrorReg ||| (1 <<< 0)) ∧
       (pollCheck true 0 0 s0W2).WarningReg = clearBit64 s0W2.WarningReg 0) ∧
     ((s0W2.RuntimeData.getD 0 rtZero).WarningCnt + 1 < (s0W2.Errors.getD 0 eZero).WarningsToError →
       (pollCheck true 0 0 s0W2).WarningReg = (s0W2.WarningReg ||| (1 <<< 0)) ∧
       ((pollCheck true 0 0 s0W2).RuntimeData.getD 0 rtZero).WarningPending = true ∧
       (pollCheck true 0 0 s0W2).ErrorReg = s0W2.ErrorReg) ∧
     ((pollCheck true 0 0 s0W2).RuntimeData.getD 0 rtZero).LastReg = 0) :=
  ⟨⟨by decide, by decide, by decide, by decide, by decide, by decide, by decide⟩,
   C1_registration_event 0 0 s0W2 (by decide) (by decide) (by decide) (by decide)
     (by decide) (by decide) (by decide)⟩

/-- The cooldown sweep never touches the error register. -/
theorem pollSweep_ErrorReg (now i : Nat) (s : EC_instance) :
    (pollSweep now i s).ErrorReg = s.ErrorReg := by
  simp only [pollSweep]
  split <;> rfl

/-- The registration phase either leaves the error register unchanged or
ors in bit i. -/
theorem pollCheck_ErrorReg_or (fault : Bool) (now i : Nat) (s : EC_instance) :
    (pollCheck fault now i s).ErrorReg = s.ErrorReg ∨
    (pollCheck fault now i s).ErrorReg = s.ErrorReg ||| (1 <<< i) := by
  simp only [pollCheck]
  repeat' split
  all_goals simp

/-- A set error bit survives one loop iteration for any condition index. -/
theorem pollStep_testBit (fault : Bool) (now i j : Nat) (s : EC_instance)
    (h : s.ErrorReg.testBit i = true) :
    (pollStep fault now j s).ErrorReg.testBit i = true := by
  unfold pollStep
  rw [pollSweep_ErrorReg]
  rcases pollCheck_ErrorReg_or fault now j s with hc | hc <;> rw [hc]
  · exact h
  · rw [Nat.testBit_or, h]
    rfl

/-- A set error bit survives the loop prefix of any length. -/
theorem pollUpTo_testBit (fault : Nat → Bool) (now i : Nat) (s : EC_instance)
    (h : s.ErrorReg.testBit i = true) :
    ∀ m, (pollUpTo fault now m s).ErrorReg.testBit i = true
  | 0 => h
  | m + 1 => pollStep_testBit _ _ _ _ _ (pollUpTo_testBit fault now i s h m)

/-- A set error bit survives a whole EC_poll pass. -/
theorem EC_poll_testBit (fault : Nat → Bool) (now i : Nat) (s : EC_instance)
    (h : s.ErrorReg.testBit i = true) :
    (EC_poll fault now s).ErrorReg.testBit i = true :=
  pollUpTo_testBit fault now i s h s.NumberOfErrors

/-- A set error bit survives any sequence of EC_poll calls. -/
theorem iteratePolls_testBit (faults : Nat → Nat → Bool) (nows : Nat → Nat)
    (i : Nat) (s : EC_instance) (h : s.ErrorReg.testBit i = true) :
    ∀ k, (iteratePolls faults nows k s).ErrorReg.testBit i = true
  | 0 => h
  | k + 1 => EC_poll_testBit _ _ _ _ (iteratePolls_testBit faults nows i s h k)

/-- A set error bit falsifies the predicate-evaluation guard. -/
theorem testBit_not_pollEvalGuard (s : EC_instance) (i : Nat)
    (h : s.ErrorReg.testBit i = true) : ¬ pollEvalGuard s i := by
  intro hg
  have h1 := hg.1
  rw [Nat.one_shiftLeft, Nat.and_two_pow, h] at h1
  simp at h1

/-- Claim C7: once error bit i is set, any number of subsequent EC_poll
passes leaves the bit set, and in each of those passes the guard that
controls evaluation of condition i's predicate (err_core.c line 68) is
false when the loop reaches condition i, so the predicate is never called
again by the periodic engine; EC_checkError remains the only entry point
that can still call it. -/
theorem C7_error_latch_suppresses_predicate (s : EC_instance) (i : Nat)
    (faults : Nat → Nat → Bool) (nows : Nat → Nat) (k : Nat)
    (h : s.ErrorReg.testBit i = true) :
    (iteratePolls faults nows k s).ErrorReg.testBit i = true ∧
    ∀ m, m < k →
      ¬ pollEvalGuard
          (pollUpTo (faults m) (nows m) i (iteratePolls faults nows m s)) i := by
  refine ⟨iteratePolls_testBit faults nows i s h k, fun m _ => ?_⟩
  exact testBit_not_pollEvalGuard _ _
    (pollUpTo_testBit _ _ _ _ (iteratePolls_testBit faults nows i s h m) i)

/-- Witness for C7 at the concrete input s = sMid (error bit 0 set), i = 0,
always-faulted predicate, ticks 0,1, k = 2 polls. -/
theorem C7_error_latch_suppresses_predicate_witness :
    sMid.ErrorReg.testBit 0 = true ∧
    ((iteratePolls (fun _ _ => true) (fun n => n) 2 sMid).ErrorReg.testBit 0 = true ∧
     ∀ m, m < 2 →
       ¬ pollEvalGuard
           (pollUpTo (fun _ => true) m 0 (iteratePolls (fun _ _ => true) (fun n => n) m sMid)) 0) :=
  ⟨by decide, C7_error_latch_suppresses_predicate sMid 0 (fun _ _ => true) (fun n => n) 2 (by decide)⟩

/-- Unsigned 32-bit delta against the zero timestamp is the tick itself. -/
theorem sub32_zero (t : Nat) (h : t < M32) : sub32 t 0 = t := by
  unfold sub32
  simp [Nat.mod_eq_of_lt h]

/-- Zero-initialized single-condition instance with WarningsToError = 1 and
arbitrary debounce / cooldown windows. -/
def sW1 (tter ttrw : Nat) : EC_instance :=
  { ErrorReg := 0, WarningReg := 0,
    Errors := [{ ErrFuncPresent := true, HelperNumber := 0, TimeToErrorRegister := tter,
                 TimeToResetWarning := ttrw, WarningsToError := 1 }],
    RuntimeData := [rtZero], NumberOfErrors := 1 }

/-- A faulted poll of sW1 before the debounce window elapses changes
nothing at all. -/
theorem pollW1_before (tter ttrw t : Nat) (h1 : t < M32) (h2 : t < tter) :
    EC_poll (fun _ => true) t (sW1 tter ttrw) = sW1 tter ttrw := by
  have hs := sub32_zero t h1
  have hg : pollEvalGuard (sW1 tter ttrw) 0 := ⟨by simp [sW1], rfl, rfl⟩
  show pollStep true t 0 (sW1 tter ttrw) = sW1 tter ttrw
  unfold pollStep
  have hcheck : pollCheck true t 0 (sW1 tter ttrw) = sW1 tter ttrw := by
    have hne : ¬ ((sW1 tter ttrw).Errors.getD 0 eZero).TimeToErrorRegister ≤
        sub32 t ((sW1 tter ttrw).RuntimeData.getD 0 rtZero).LastNoErr := by
      simp only [sW1, rtZero, List.getD_cons_zero]
      rw [hs]
      omega
    simp only [pollCheck]
    rw [if_pos hg, if_neg (by simp), if_neg hne]
  rw [hcheck]
  simp only [pollSweep]
  split
  · simp [sW1, rtZero, clearBit64]
  · rfl

/-- A faulted poll of sW1 once the debounce window has elapsed sets error
bit 0 (immediate escalation, WarningsToError = 1). -/
theorem pollW1_at (tter ttrw t : Nat) (h1 : t < M32) (h2 : tter ≤ t) :
    (EC_poll (fun _ => true) t (sW1 tter ttrw)).ErrorReg = 1 := by
  have hs := sub32_zero t h1
  have hg : pollEvalGuard (sW1 tter ttrw) 0 := ⟨by simp [sW1], rfl, rfl⟩
  show (pollStep true t 0 (sW1 tter ttrw)).ErrorReg = 1
  unfold pollStep
  rw [pollSweep_ErrorReg]
  have helapsed : ((sW1 tter ttrw).Errors.getD 0 eZero).TimeToErrorRegister ≤
      sub32 t ((sW1 tter ttrw).RuntimeData.getD 0 rtZero).LastNoErr := by
    simp only [sW1, rtZero, List.getD_cons_zero]
    rw [hs]
    exact h2
  have hwte : ((sW1 tter ttrw).Errors.getD 0 eZero).WarningsToError ≤
      (((sW1 tter ttrw).RuntimeData.getD 0 rtZero).WarningCnt + 1) % 128 := by
    simp [sW1, rtZero]
  simp only [pollCheck]
  rw [if_pos hg, if_neg (by simp), if_pos helapsed, if_pos hwte]
  simp [sW1]

/-- Claim C8: for a condition with WarningsToError = 1, starting from the
zero-initialized runtime state with the predicate continuously faulted
(so tick 0 is the implicit last fault-free timestamp), the error bit is
still clear after every poll whose tick is below TimeToErrorRegister and is
set by the first poll whose tick reaches TimeToErrorRegister. -/
theorem C8_wte1_escalates_on_exact_tick (tter ttrw m : Nat) (nows : Nat → Nat)
    (hb : ∀ j, j ≤ m → nows j < M32)
    (hlt : ∀ j, j < m → nows j < tter)
    (hge : tter ≤ nows m) :
    (∀ j, j ≤ m →
      (iteratePolls (fun _ _ => true) nows j (sW1 tter ttrw)).ErrorReg.testBit 0 = false) ∧
    (iteratePolls (fun _ _ => true) nows (m + 1) (sW1 tter ttrw)).ErrorReg.testBit 0 = true := by
  have hstay : ∀ j, j ≤ m →
      iteratePolls (fun _ _ => true) nows j (sW1 tter ttrw) = sW1 tter ttrw := by
    intro j hj
    induction j with
    | zero => rfl
    | succ n ih =>
      have hn : n ≤ m := Nat.le_of_succ_le hj
      simp only [iteratePolls]
      rw [ih hn]
      exact pollW1_before tter ttrw (nows n) (hb n hn) (hlt n (Nat.lt_of_succ_le hj))
  constructor
  · intro j hj
    rw [hstay j hj]
    simp [sW1]
  · simp only [iteratePolls]
    rw [hstay m (Nat.le_refl m)]
    have h1 := pollW1_at tter ttrw (nows m) (hb m (Nat.le_refl m)) hge
    rw [h1]
    decide

/-- Witness for C8 at the concrete input TimeToErrorRegister = 2,
TimeToResetWarning = 5, polls at ticks 0, 1, 2: the bit is clear after the
polls at ticks 0 and 1 and set by the poll at tick 2. -/
theorem C8_wte1_escalates_on_exact_tick_witness :
    ((∀ j, j ≤ 2 → (fun n => n) j < M32) ∧
     (∀ j, j < 2 → (fun n => n) j < 2) ∧
     2 ≤ (fun n => n) 2) ∧
    ((∀ j, j ≤ 2 →
       (iteratePolls (fun _ _ => true) (fun n => n) j (sW1 2 5)).ErrorReg.testBit 0 = false) ∧
     (iteratePolls (fun _ _ => true) (fun n => n) 3 (sW1 2 5)).ErrorReg.testBit 0 = true) :=
  ⟨⟨by decide, by decide, by decide⟩,
   C8_wte1_escalates_on_exact_tick 2 5 2 (fun n => n) (by decide) (by decide) (by decide)⟩
